import Mathlib

/-!
Verification of the MAPF metrics engine and solution validator of this
repository (`app.py` and the `pypibt` package it drives).

The metrics engine `calculate_metrics` is embedded directly from
`src/app.py`.  Positions are pairs of integers, a configuration is the
list of agent positions at one timestep, and a plan is the list of
configurations.  Python's float `computation_time` and the float division
producing `average_path_length` are modelled with exact rationals; the
`ZeroDivisionError` raised when the agent array is empty is modelled by
returning `none`.  List indexing `xs[i]` is modelled with `List.getD`
together with explicit bounds where a statement depends on them.
-/

/-- A grid cell, `(row, column)`, as a pair of integers. -/
abbrev Pos : Type := Int × Int

/-- The positions of all agents at one timestep (`plan[t]` in the code). -/
abbrev Config : Type := List Pos

/-- An ordered sequence of configurations. -/
abbrev Plan : Type := List Config

/-- Default position used to totalise list indexing. -/
def dPos : Pos := (0, 0)

/-- The inner loop of `calculate_metrics` (src/app.py lines 31-34): starting
from `agent_path_length = 0`, every timestep whose position differs from the
goal overwrites it with `timestep + 1`. -/
def agent_path_length (plan : Plan) (agent_id : Nat) (goal_position : Pos) : Nat :=
  (List.range plan.length).foldl
    (fun acc timestep =>
      if (plan.getD timestep []).getD agent_id dPos ≠ goal_position then timestep + 1 else acc)
    0

/-- The outer loop of `calculate_metrics` (src/app.py lines 28-35): sum of the
per-agent path lengths, `goal_position = goals[agent_id]`. -/
def sum_of_costs (plan : Plan) (number_of_agents : Nat) (goals : List Pos) : Nat :=
  (List.range number_of_agents).foldl
    (fun acc agent_id => acc + agent_path_length plan agent_id (goals.getD agent_id dPos))
    0

/-- The full record returned by `calculate_metrics` on a non-empty plan
(src/app.py lines 41-49). -/
structure MetricsRecord where
  number_of_agents : Nat
  success : Bool
  makespan : Nat
  sum_of_costs : Nat
  average_path_length : Rat
  total_timesteps : Nat
  computation_time : Rat
deriving DecidableEq, Repr

/-- The two shapes of dictionary `calculate_metrics` can return: the failure
record `{'success': False, 'computation_time': t}` for an empty plan, or the
full record. -/
inductive MetricsResult where
  | failureRecord (computation_time : Rat)
  | fullRecord (r : MetricsRecord)
deriving DecidableEq, Repr

/-- `calculate_metrics` from src/app.py lines 19-49.  `none` models the
`ZeroDivisionError` raised by `sum_of_costs / number_of_agents` when
`starts` is empty while the plan is not. -/
def calculate_metrics (plan : Plan) (starts goals : List Pos) (computation_time : Rat) :
    Option MetricsResult :=
  if plan = [] then
    some (.failureRecord computation_time)
  else
    let number_of_agents := starts.length
    let makespan := plan.length - 1
    let soc := sum_of_costs plan number_of_agents goals
    let final_positions := plan.getD (plan.length - 1) []
    let all_reached_goals :=
      decide (∀ i < number_of_agents, final_positions.getD i dPos = goals.getD i dPos)
    if number_of_agents = 0 then none
    else
      some (.fullRecord
        { number_of_agents := number_of_agents
          success := all_reached_goals
          makespan := makespan
          sum_of_costs := soc
          average_path_length := (soc : Rat) / (number_of_agents : Rat)
          total_timesteps := plan.length
          computation_time := computation_time })

/-- Observer: the `success` field of a full record. -/
def MetricsResult.getSuccess : Option MetricsResult → Option Bool
  | some (.fullRecord r) => some r.success
  | _ => none

/-- Observer: the `makespan` field of a full record. -/
def MetricsResult.getMakespan : Option MetricsResult → Option Nat
  | some (.fullRecord r) => some r.makespan
  | _ => none

/-- Observer: the `total_timesteps` field of a full record. -/
def MetricsResult.getTotalTimesteps : Option MetricsResult → Option Nat
  | some (.fullRecord r) => some r.total_timesteps
  | _ => none

/-- Observer: the `sum_of_costs` field of a full record. -/
def MetricsResult.getSumOfCosts : Option MetricsResult → Option Nat
  | some (.fullRecord r) => some r.sum_of_costs
  | _ => none

/-- Observer: the `average_path_length` field of a full record. -/
def MetricsResult.getAveragePathLength : Option MetricsResult → Option Rat
  | some (.fullRecord r) => some r.average_path_length
  | _ => none

/-- Observer: the `number_of_agents` field of a full record. -/
def MetricsResult.getNumAgents : Option MetricsResult → Option Nat
  | some (.fullRecord r) => some r.number_of_agents
  | _ => none

/-- Erase the caller-supplied `computation_time` from a result, for stating
that it is the only input-dependent difference between runs. -/
def MetricsResult.eraseTime : Option MetricsResult → Option MetricsResult
  | some (.failureRecord _) => some (.failureRecord 0)
  | some (.fullRecord r) => some (.fullRecord { r with computation_time := 0 })
  | none => none

/-! ### The solution validator, modelled from the spec

`is_valid_mapf_solution` is imported by `src/app.py` from the repository's
`pypibt` package, whose source is not under `src/`; the validator below is
therefore modelled from spec section 4.1. -/

/-- Modelled from the spec: the Grid consumed by the validator, which only
needs `is_walkable(Position) -> bool` (4-directional adjacency is geometric,
checked separately). -/
structure Grid where
  walkable : Pos → Bool

/-- Modelled from the spec: `q` is one of the 4-directional neighbors of `p`
(no diagonal moves, no teleportation). -/
def isNeighbor4 (p q : Pos) : Bool :=
  ((p.1 - q.1).natAbs + (p.2 - q.2).natAbs) == 1

/-- Modelled from the spec: the failure kinds of a `ValidationVerdict`
(spec sections 4.1 and 7). -/
inductive FailureKind where
  | EMPTY_PLAN
  | START_MISMATCH
  | BLOCKED_CELL
  | ILLEGAL_MOVE
  | VERTEX_COLLISION
  | EDGE_SWAP
  | GOAL_NOT_REACHED
deriving DecidableEq, Repr

/-- Modelled from the spec: a validation verdict, success or a failure kind
(the offending timestep/agent context carried by the spec's verdict is
omitted; only the kind matters for the properties below). -/
inductive ValidationVerdict where
  | ok
  | fail (kind : FailureKind)
deriving DecidableEq, Repr

/-- Modelled from the spec: the per-transition checks of section 4.1 step 2,
applied in order with short-circuit — cell validity, move legality, vertex
collision, edge/swap collision — for one consecutive pair `(cFrom, cTo)` and
`n` agents. -/
def transitionError (grid : Grid) (n : Nat) (cFrom cTo : Config) : Option FailureKind :=
  if ¬ (∀ i < n, grid.walkable (cTo.getD i dPos) = true) then
    some .BLOCKED_CELL
  else if ¬ (∀ i < n, cTo.getD i dPos = cFrom.getD i dPos ∨
      isNeighbor4 (cFrom.getD i dPos) (cTo.getD i dPos) = true) then
    some .ILLEGAL_MOVE
  else if ¬ (∀ i < n, ∀ j < n, i ≠ j → cTo.getD i dPos ≠ cTo.getD j dPos) then
    some .VERTEX_COLLISION
  else if ¬ (∀ i < n, ∀ j < n, i ≠ j →
      ¬ (cTo.getD i dPos = cFrom.getD j dPos ∧ cTo.getD j dPos = cFrom.getD i dPos)) then
    some .EDGE_SWAP
  else
    none

/-- Modelled from the spec: the first per-transition failure over the
consecutive configuration pairs of a plan, scanned in order (fail-fast). -/
def transitionsError (grid : Grid) (n : Nat) : Plan → Option FailureKind
  | c1 :: c2 :: rest =>
      match transitionError grid n c1 c2 with
      | some k => some k
      | none => transitionsError grid n (c2 :: rest)
  | _ => none

/-- Modelled from the spec: `validate(grid, starts, goals, plan)` of section
4.1 — empty-plan check, initial-state check, per-transition checks, then the
goal-reaching check, short-circuiting on the first failure. -/
def validate (grid : Grid) (starts goals : List Pos) (plan : Plan) : ValidationVerdict :=
  match plan with
  | [] => .fail .EMPTY_PLAN
  | c0 :: rest =>
      if c0 ≠ starts then .fail .START_MISMATCH
      else
        match transitionsError grid starts.length (c0 :: rest) with
        | some k => .fail k
        | none =>
            if ∀ i < starts.length,
                ((c0 :: rest).getD ((c0 :: rest).length - 1) []).getD i dPos =
                  goals.getD i dPos then
              .ok
            else .fail .GOAL_NOT_REACHED

/-- The legal-transition hypothesis of the validator claim: every agent
either waits or moves to a walkable 4-directional neighbor. -/
abbrev okTransition (grid : Grid) (n : Nat) (cFrom cTo : Config) : Prop :=
  ∀ i < n, cTo.getD i dPos = cFrom.getD i dPos ∨
    (isNeighbor4 (cFrom.getD i dPos) (cTo.getD i dPos) = true ∧
      grid.walkable (cTo.getD i dPos) = true)

/-- No two distinct agents share a cell within one configuration. -/
abbrev noVertexCollision (n : Nat) (c : Config) : Prop :=
  ∀ i < n, ∀ j < n, i ≠ j → c.getD i dPos ≠ c.getD j dPos

/-- No two distinct agents swap cells across one transition. -/
abbrev noSwap (n : Nat) (cFrom cTo : Config) : Prop :=
  ∀ i < n, ∀ j < n, i ≠ j →
    ¬ (cTo.getD i dPos = cFrom.getD j dPos ∧ cTo.getD j dPos = cFrom.getD i dPos)

instance okTransitionDec (grid : Grid) (n : Nat) (a b : Config) :
    Decidable (okTransition grid n a b) := by
  unfold okTransition
  infer_instance

instance noVertexCollisionDec (n : Nat) (c : Config) :
    Decidable (noVertexCollision n c) := by
  unfold noVertexCollision
  infer_instance

instance noSwapDec (n : Nat) (a b : Config) : Decidable (noSwap n a b) := by
  unfold noSwap
  infer_instance

/-- A fully open grid, used as a concrete test instance. -/
def openGrid : Grid := ⟨fun _ => true⟩

/-- A grid whose only blocked cell is the origin, used as a concrete test
instance. -/
def originBlockedGrid : Grid := ⟨fun p => ! (p == ((0 : Int), (0 : Int)))⟩

/-! ### Generic lemmas about the last-departure fold -/

/-- The fold underlying `agent_path_length`, abstracted over the predicate
"position at timestep `t` differs from the goal". -/
def lastDepart (p : Nat → Prop) [DecidablePred p] (n : Nat) : Nat :=
  (List.range n).foldl (fun acc t => if p t then t + 1 else acc) 0

theorem lastDepart_succ (p : Nat → Prop) [DecidablePred p] (n : Nat) :
    lastDepart p (n + 1) = if p n then n + 1 else lastDepart p n := by
  simp [lastDepart, List.range_succ]

theorem lastDepart_eq_zero (p : Nat → Prop) [DecidablePred p] (n : Nat)
    (h : ∀ t < n, ¬ p t) : lastDepart p n = 0 := by
  induction n with
  | zero => rfl
  | succ m ih =>
      rw [lastDepart_succ, if_neg (h m (Nat.lt_succ_self m))]
      exact ih fun t ht => h t (Nat.lt_succ_of_lt ht)

theorem le_lastDepart (p : Nat → Prop) [DecidablePred p] (n t : Nat)
    (ht : t < n) (hp : p t) : t + 1 ≤ lastDepart p n := by
  induction n with
  | zero => omega
  | succ m ih =>
      rw [lastDepart_succ]
      by_cases hm : p m
      · rw [if_pos hm]; omega
      · rw [if_neg hm]
        rcases Nat.lt_succ_iff_lt_or_eq.mp ht with h | h
        · exact ih h
        · exact absurd hp (h ▸ hm)

theorem lastDepart_eq (p : Nat → Prop) [DecidablePred p] (n t : Nat)
    (ht : t < n) (hp : p t) (hAfter : ∀ s, t < s → s < n → ¬ p s) :
    lastDepart p n = t + 1 := by
  induction n with
  | zero => omega
  | succ m ih =>
      rw [lastDepart_succ]
      rcases Nat.lt_succ_iff_lt_or_eq.mp ht with h | h
      · rw [if_neg (hAfter m h (Nat.lt_succ_self m))]
        exact ih h fun s hs hsm => hAfter s hs (Nat.lt_succ_of_lt hsm)
      · subst h; rw [if_pos hp]

theorem lastDepart_le (p : Nat → Prop) [DecidablePred p] (n : Nat) :
    lastDepart p n ≤ n := by
  induction n with
  | zero => exact Nat.le_refl 0
  | succ m ih =>
      rw [lastDepart_succ]
      by_cases hm : p m
      · rw [if_pos hm]
      · rw [if_neg hm]; omega

/-- `agent_path_length` is exactly the abstract fold. -/
theorem agent_path_length_eq_lastDepart (plan : Plan) (i : Nat) (g : Pos) :
    agent_path_length plan i g =
      lastDepart (fun t => (plan.getD t []).getD i dPos ≠ g) plan.length := by
  rfl

/-! ### Shape of `calculate_metrics` on the three input regions -/

/-- On a non-empty plan with at least one agent, `calculate_metrics` returns
the full record, with every field spelled out. -/
theorem calculate_metrics_full (plan : Plan) (starts goals : List Pos)
    (t : Rat) (hp : plan ≠ []) (hs : starts ≠ []) :
    calculate_metrics plan starts goals t =
      some (.fullRecord
        { number_of_agents := starts.length
          success := decide (∀ i < starts.length,
            (plan.getD (plan.length - 1) []).getD i dPos = goals.getD i dPos)
          makespan := plan.length - 1
          sum_of_costs := sum_of_costs plan starts.length goals
          average_path_length :=
            (sum_of_costs plan starts.length goals : Rat) / (starts.length : Rat)
          total_timesteps := plan.length
          computation_time := t }) := by
  have hlen : starts.length ≠ 0 := fun h => hs (List.length_eq_zero.mp h)
  simp only [calculate_metrics, if_neg hp, if_neg hlen]

/-! ### Sum-of-costs as a mapped sum -/

theorem foldl_add_eq_sum (f : Nat → Nat) (l : List Nat) (a : Nat) :
    l.foldl (fun acc i => acc + f i) a = a + (l.map f).sum := by
  induction l generalizing a with
  | nil => simp
  | cons x xs ih => simp [ih, Nat.add_assoc]

theorem sum_of_costs_eq_sum (plan : Plan) (n : Nat) (goals : List Pos) :
    sum_of_costs plan n goals =
      ((List.range n).map (fun i => agent_path_length plan i (goals.getD i dPos))).sum := by
  unfold sum_of_costs
  rw [foldl_add_eq_sum]
  simp

/-! ### The claims -/

/-- C1: for every agent (with a non-empty plan), the per-agent path length
computed by `calculate_metrics` equals `1 + t` for the largest timestep `t`
at which the agent's position differs from its goal, and equals `0` when the
agent sits on its goal at every timestep; in particular a later departure
from the goal, not the first arrival, determines the length. -/
theorem C1_path_length_last_departure (plan : Plan) (goal : Pos) (i : Nat)
    (hne : plan ≠ []) :
    ((∀ s < plan.length, (plan.getD s []).getD i dPos = goal) →
      agent_path_length plan i goal = 0) ∧
    (∀ t < plan.length, (plan.getD t []).getD i dPos ≠ goal →
      (∀ s, t < s → s < plan.length → (plan.getD s []).getD i dPos = goal) →
      agent_path_length plan i goal = t + 1) := by
  constructor
  · intro hall
    rw [agent_path_length_eq_lastDepart]
    exact lastDepart_eq_zero _ _ fun s hs => not_not_intro (hall s hs)
  · intro t ht hdiff hafter
    rw [agent_path_length_eq_lastDepart]
    exact lastDepart_eq _ _ t ht hdiff fun s hs hsn => not_not_intro (hafter s hs hsn)

/-- Witness for C1 at a concrete oscillating path: the agent reaches the
goal `(1,1)` at timestep 1, departs again at timestep 3, and returns at
timestep 4, so the path length is `3 + 1 = 4`, not the first arrival. -/
theorem C1_path_length_last_departure_witness :
    ([[((0 : Int), (0 : Int))], [((1 : Int), (1 : Int))], [((1 : Int), (1 : Int))],
      [((0 : Int), (1 : Int))], [((1 : Int), (1 : Int))]] : Plan) ≠ [] ∧
    agent_path_length
      [[((0 : Int), (0 : Int))], [((1 : Int), (1 : Int))], [((1 : Int), (1 : Int))],
        [((0 : Int), (1 : Int))], [((1 : Int), (1 : Int))]] 0 ((1 : Int), (1 : Int)) = 4 := by
  refine ⟨by decide, ?_⟩
  refine (C1_path_length_last_departure _ _ 0 (by decide)).2 3 (by decide) (by decide) ?_
  intro s hs hs5
  simp only [List.length_cons, List.length_nil] at hs5
  have h4 : s = 4 := by omega
  subst h4
  decide

/-- C2: on an empty (or null) plan, `calculate_metrics` returns the record
holding only `success = false` and the caller-supplied `computation_time`;
no other field exists in that record shape. -/
theorem C2_empty_plan_failure_record (starts goals : List Pos) (t : Rat) :
    calculate_metrics [] starts goals t = some (.failureRecord t) := by
  simp [calculate_metrics]

/-- C3: for every non-empty plan (and at least one agent, so that the record
exists), the returned `success` flag is true exactly when every agent's
position in the final configuration `plan[len(plan)-1]` equals its goal. -/
theorem C3_success_iff_goals_reached (plan : Plan) (starts goals : List Pos) (t : Rat)
    (hp : plan ≠ []) (hs : starts ≠ []) :
    MetricsResult.getSuccess (calculate_metrics plan starts goals t) =
      some (decide (∀ i < starts.length,
        (plan.getD (plan.length - 1) []).getD i dPos = goals.getD i dPos)) := by
  rw [calculate_metrics_full plan starts goals t hp hs]
  rfl

/-- Witness for C3: a one-agent plan that ends on the goal yields
`success = true`. -/
theorem C3_success_iff_goals_reached_witness :
    ([[((0 : Int), (0 : Int))], [((1 : Int), (0 : Int))]] : Plan) ≠ [] ∧
    ([((0 : Int), (0 : Int))] : List Pos) ≠ [] ∧
    MetricsResult.getSuccess
      (calculate_metrics [[((0 : Int), (0 : Int))], [((1 : Int), (0 : Int))]]
        [((0 : Int), (0 : Int))] [((1 : Int), (0 : Int))] 0) = some true :=
  ⟨by decide, by decide,
    (C3_success_iff_goals_reached _ _ _ _ (by decide) (by decide)).trans (by decide)⟩

/-- C4: for every non-empty plan (with at least one agent), the returned
record has `makespan = len(plan) - 1` and `total_timesteps = len(plan)`. -/
theorem C4_makespan_total_timesteps (plan : Plan) (starts goals : List Pos) (t : Rat)
    (hp : plan ≠ []) (hs : starts ≠ []) :
    MetricsResult.getMakespan (calculate_metrics plan starts goals t) =
      some (plan.length - 1) ∧
    MetricsResult.getTotalTimesteps (calculate_metrics plan starts goals t) =
      some plan.length := by
  rw [calculate_metrics_full plan starts goals t hp hs]
  exact ⟨rfl, rfl⟩

/-- Witness for C4 on a concrete two-configuration plan. -/
theorem C4_makespan_total_timesteps_witness :
    ([[((0 : Int), (0 : Int))], [((1 : Int), (0 : Int))]] : Plan) ≠ [] ∧
    ([((0 : Int), (0 : Int))] : List Pos) ≠ [] ∧
    (MetricsResult.getMakespan
      (calculate_metrics [[((0 : Int), (0 : Int))], [((1 : Int), (0 : Int))]]
        [((0 : Int), (0 : Int))] [((1 : Int), (0 : Int))] 0) = some 1 ∧
    MetricsResult.getTotalTimesteps
      (calculate_metrics [[((0 : Int), (0 : Int))], [((1 : Int), (0 : Int))]]
        [((0 : Int), (0 : Int))] [((1 : Int), (0 : Int))] 0) = some 2) :=
  ⟨by decide, by decide,
    C4_makespan_total_timesteps _ _ _ _ (by decide) (by decide)⟩

/-- C5: for every non-empty plan (with at least one agent), the returned
`sum_of_costs` is the sum of the per-agent path lengths over all agents, and
`average_path_length` is that sum divided by the number of agents. -/
theorem C5_sum_and_average (plan : Plan) (starts goals : List Pos) (t : Rat)
    (hp : plan ≠ []) (hs : starts ≠ []) :
    MetricsResult.getSumOfCosts (calculate_metrics plan starts goals t) =
      some (((List.range starts.length).map
        (fun i => agent_path_length plan i (goals.getD i dPos))).sum) ∧
    MetricsResult.getAveragePathLength (calculate_metrics plan starts goals t) =
      some ((((List.range starts.length).map
        (fun i => agent_path_length plan i (goals.getD i dPos))).sum : Rat) /
        (starts.length : Rat)) := by
  rw [calculate_metrics_full plan starts goals t hp hs]
  rw [MetricsResult.getSumOfCosts, MetricsResult.getAveragePathLength]
  rw [sum_of_costs_eq_sum]
  exact ⟨rfl, rfl⟩

/-- Witness for C5 on a concrete two-agent plan: path lengths 1 and 0, so
`sum_of_costs = 1` and `average_path_length = 1/2`. -/
theorem C5_sum_and_average_witness :
    ([[((0 : Int), (0 : Int)), ((3 : Int), (3 : Int))],
      [((0 : Int), (1 : Int)), ((3 : Int), (3 : Int))]] : Plan) ≠ [] ∧
    ([((0 : Int), (0 : Int)), ((3 : Int), (3 : Int))] : List Pos) ≠ [] ∧
    (MetricsResult.getSumOfCosts
      (calculate_metrics
        [[((0 : Int), (0 : Int)), ((3 : Int), (3 : Int))],
          [((0 : Int), (1 : Int)), ((3 : Int), (3 : Int))]]
        [((0 : Int), (0 : Int)), ((3 : Int), (3 : Int))]
        [((0 : Int), (1 : Int)), ((3 : Int), (3 : Int))] 0) = some 1 ∧
    MetricsResult.getAveragePathLength
      (calculate_metrics
        [[((0 : Int), (0 : Int)), ((3 : Int), (3 : Int))],
          [((0 : Int), (1 : Int)), ((3 : Int), (3 : Int))]]
        [((0 : Int), (0 : Int)), ((3 : Int), (3 : Int))]
        [((0 : Int), (1 : Int)), ((3 : Int), (3 : Int))] 0) = some (1 / 2)) := by
  refine ⟨by decide, by decide, ?_⟩
  have h := C5_sum_and_average
    [[((0 : Int), (0 : Int)), ((3 : Int), (3 : Int))],
      [((0 : Int), (1 : Int)), ((3 : Int), (3 : Int))]]
    [((0 : Int), (0 : Int)), ((3 : Int), (3 : Int))]
    [((0 : Int), (1 : Int)), ((3 : Int), (3 : Int))] 0 (by decide) (by decide)
  refine ⟨h.1.trans (by decide), h.2.trans ?_⟩
  have hsum : (List.map
      (fun i => agent_path_length
        [[((0 : Int), (0 : Int)), ((3 : Int), (3 : Int))],
          [((0 : Int), (1 : Int)), ((3 : Int), (3 : Int))]] i
        (([((0 : Int), (1 : Int)), ((3 : Int), (3 : Int))] : List Pos).getD i dPos))
      (List.range
        ([((0 : Int), (0 : Int)), ((3 : Int), (3 : Int))] : List Pos).length)).sum = 1 := by
    decide
  rw [hsum]
  norm_num

/-- C6: on a plan of length 1 in which no agent sits on its goal,
`calculate_metrics` returns `success = false`, `makespan = 0`, and
`sum_of_costs = number_of_agents` — each agent has path length 1 under the
departure-time metric. -/
theorem C6_length_one_plan (c0 : Config) (starts goals : List Pos) (t : Rat)
    (hs : starts ≠ [])
    (hmiss : ∀ i < starts.length, c0.getD i dPos ≠ goals.getD i dPos) :
    MetricsResult.getSuccess (calculate_metrics [c0] starts goals t) = some false ∧
    MetricsResult.getMakespan (calculate_metrics [c0] starts goals t) = some 0 ∧
    MetricsResult.getSumOfCosts (calculate_metrics [c0] starts goals t) =
      some starts.length := by
  have h0 : 0 < starts.length := List.length_pos.mpr hs
  rw [calculate_metrics_full [c0] starts goals t (by simp) hs]
  refine ⟨?_, rfl, ?_⟩
  · have hnot : ¬ (∀ i < starts.length,
        (([c0] : Plan).getD (([c0] : Plan).length - 1) []).getD i dPos =
          goals.getD i dPos) := by
      intro hall
      exact hmiss 0 h0 (hall 0 h0)
    simp only [MetricsResult.getSuccess, decide_eq_false hnot]
  · have hone : ∀ i < starts.length, agent_path_length [c0] i (goals.getD i dPos) = 1 := by
      intro i hi
      rw [agent_path_length_eq_lastDepart]
      exact lastDepart_eq _ 1 0 Nat.one_pos (hmiss i hi) (fun s hs1 hs2 => by omega)
    have : sum_of_costs [c0] starts.length goals = starts.length := by
      rw [sum_of_costs_eq_sum]
      rw [List.map_congr_left (fun i hi =>
        hone i (List.mem_range.mp hi))]
      simp [List.map_const]
    rw [MetricsResult.getSumOfCosts, this]

/-- Witness for C6: one agent, single configuration away from its goal. -/
theorem C6_length_one_plan_witness :
    ([((5 : Int), (5 : Int))] : List Pos) ≠ [] ∧
    (∀ i < ([((5 : Int), (5 : Int))] : List Pos).length,
      ([((0 : Int), (0 : Int))] : Config).getD i dPos ≠
        ([((1 : Int), (1 : Int))] : List Pos).getD i dPos) ∧
    (MetricsResult.getSuccess
      (calculate_metrics [[((0 : Int), (0 : Int))]] [((5 : Int), (5 : Int))]
        [((1 : Int), (1 : Int))] 0) = some false ∧
    MetricsResult.getMakespan
      (calculate_metrics [[((0 : Int), (0 : Int))]] [((5 : Int), (5 : Int))]
        [((1 : Int), (1 : Int))] 0) = some 0 ∧
    MetricsResult.getSumOfCosts
      (calculate_metrics [[((0 : Int), (0 : Int))]] [((5 : Int), (5 : Int))]
        [((1 : Int), (1 : Int))] 0) = some 1) :=
  ⟨by decide, by decide,
    C6_length_one_plan [((0 : Int), (0 : Int))] [((5 : Int), (5 : Int))]
      [((1 : Int), (1 : Int))] 0 (by decide) (by decide)⟩

/-- C7: `calculate_metrics` is pure and deterministic — two calls on the same
plan, starts and goals differ at most in the caller-supplied
`computation_time` field of the result (the embedding is a total function, so
input mutation is impossible by construction). -/
theorem C7_pure_up_to_time (plan : Plan) (starts goals : List Pos) (t1 t2 : Rat) :
    MetricsResult.eraseTime (calculate_metrics plan starts goals t1) =
      MetricsResult.eraseTime (calculate_metrics plan starts goals t2) := by
  by_cases hp : plan = []
  · subst hp; rfl
  · by_cases hs : starts = []
    · subst hs
      simp [calculate_metrics, hp, MetricsResult.eraseTime]
    · rw [calculate_metrics_full plan starts goals t1 hp hs,
        calculate_metrics_full plan starts goals t2 hp hs]
      rfl

/-- C9: with a non-empty plan and an empty starts array the division by
`number_of_agents` fails and no record is produced (`none`, modelling
Python's `ZeroDivisionError`); with at least one agent, or an empty plan,
`calculate_metrics` always produces a record. -/
theorem C9_zero_agents_divide_by_zero (plan : Plan) (starts goals : List Pos) (t : Rat) :
    (plan ≠ [] → starts = [] → calculate_metrics plan starts goals t = none) ∧
    (starts ≠ [] ∨ plan = [] → (calculate_metrics plan starts goals t).isSome = true) := by
  constructor
  · intro hp hs
    subst hs
    simp [calculate_metrics, hp]
  · intro h
    by_cases hp : plan = []
    · subst hp; simp [calculate_metrics]
    · have hs : starts ≠ [] := h.resolve_right hp
      rw [calculate_metrics_full plan starts goals t hp hs]
      rfl

/-- Witness for C9: a concrete zero-agent call returns no record, while a
one-agent call on the same plan returns one. -/
theorem C9_zero_agents_divide_by_zero_witness :
    calculate_metrics [[((0 : Int), (0 : Int))]] [] [] 0 = none ∧
    (calculate_metrics [[((0 : Int), (0 : Int))]] [((0 : Int), (0 : Int))]
      [((0 : Int), (0 : Int))] 0).isSome = true :=
  ⟨(C9_zero_agents_divide_by_zero [[((0 : Int), (0 : Int))]] [] [] 0).1 (by decide) rfl,
    (C9_zero_agents_divide_by_zero [[((0 : Int), (0 : Int))]] [((0 : Int), (0 : Int))]
      [((0 : Int), (0 : Int))] 0).2 (Or.inl (by decide))⟩

/-- C10: when `calculate_metrics` reports `success = true` on a non-empty
plan, every per-agent path length is at most `makespan = len(plan) - 1`, the
returned `sum_of_costs` is the loop's sum, and that sum is at most
`number_of_agents * makespan`. -/
theorem C10_success_bounds_costs (plan : Plan) (starts goals : List Pos) (t : Rat)
    (hp : plan ≠ []) (hs : starts ≠ [])
    (hsucc : MetricsResult.getSuccess (calculate_metrics plan starts goals t) = some true) :
    (∀ i < starts.length,
      agent_path_length plan i (goals.getD i dPos) ≤ plan.length - 1) ∧
    MetricsResult.getSumOfCosts (calculate_metrics plan starts goals t) =
      some (sum_of_costs plan starts.length goals) ∧
    sum_of_costs plan starts.length goals ≤ starts.length * (plan.length - 1) := by
  rw [calculate_metrics_full plan starts goals t hp hs] at hsucc ⊢
  have hfin : ∀ i < starts.length,
      (plan.getD (plan.length - 1) []).getD i dPos = goals.getD i dPos := by
    have := Option.some.inj hsucc
    exact of_decide_eq_true this
  obtain ⟨m, hm⟩ : ∃ m, plan.length = m + 1 :=
    ⟨plan.length - 1, (Nat.succ_pred_eq_of_pos (List.length_pos.mpr hp)).symm⟩
  have hbound : ∀ i < starts.length,
      agent_path_length plan i (goals.getD i dPos) ≤ plan.length - 1 := by
    intro i hi
    rw [agent_path_length_eq_lastDepart, hm]
    have hlast : ¬ ((plan.getD m []).getD i dPos ≠ goals.getD i dPos) := by
      have := hfin i hi
      rw [hm] at this
      simpa using this
    rw [lastDepart_succ, if_neg hlast]
    have := lastDepart_le (fun s => (plan.getD s []).getD i dPos ≠ goals.getD i dPos) m
    omega
  refine ⟨hbound, rfl, ?_⟩
  rw [sum_of_costs_eq_sum]
  have hle := List.sum_le_card_nsmul
    ((List.range starts.length).map (fun i => agent_path_length plan i (goals.getD i dPos)))
    (plan.length - 1) ?_
  · simpa [smul_eq_mul] using hle
  · intro x hx
    obtain ⟨i, hi, rfl⟩ := List.mem_map.mp hx
    exact hbound i (List.mem_range.mp hi)

/-- Witness for C10: one agent that reaches its goal in one step, path
length `1 = makespan`, `sum_of_costs = 1 ≤ 1 * 1`. -/
theorem C10_success_bounds_costs_witness :
    ([[((0 : Int), (0 : Int))], [((1 : Int), (0 : Int))]] : Plan) ≠ [] ∧
    ([((0 : Int), (0 : Int))] : List Pos) ≠ [] ∧
    MetricsResult.getSuccess
      (calculate_metrics [[((0 : Int), (0 : Int))], [((1 : Int), (0 : Int))]]
        [((0 : Int), (0 : Int))] [((1 : Int), (0 : Int))] 0) = some true ∧
    ((∀ i < ([((0 : Int), (0 : Int))] : List Pos).length,
      agent_path_length [[((0 : Int), (0 : Int))], [((1 : Int), (0 : Int))]] i
        (([((1 : Int), (0 : Int))] : List Pos).getD i dPos) ≤
        ([[((0 : Int), (0 : Int))], [((1 : Int), (0 : Int))]] : Plan).length - 1) ∧
    MetricsResult.getSumOfCosts
      (calculate_metrics [[((0 : Int), (0 : Int))], [((1 : Int), (0 : Int))]]
        [((0 : Int), (0 : Int))] [((1 : Int), (0 : Int))] 0) =
      some (sum_of_costs [[((0 : Int), (0 : Int))], [((1 : Int), (0 : Int))]]
        ([((0 : Int), (0 : Int))] : List Pos).length [((1 : Int), (0 : Int))]) ∧
    sum_of_costs [[((0 : Int), (0 : Int))], [((1 : Int), (0 : Int))]]
        ([((0 : Int), (0 : Int))] : List Pos).length [((1 : Int), (0 : Int))] ≤
      ([((0 : Int), (0 : Int))] : List Pos).length *
        (([[((0 : Int), (0 : Int))], [((1 : Int), (0 : Int))]] : Plan).length - 1)) :=
  ⟨by decide, by decide, by decide,
    C10_success_bounds_costs [[((0 : Int), (0 : Int))], [((1 : Int), (0 : Int))]]
      [((0 : Int), (0 : Int))] [((1 : Int), (0 : Int))] 0
      (by decide) (by decide) (by decide)⟩

/-! ### Validator correctness on legal plans -/

/-- If the first configuration is all-walkable, every transition waits or
moves to a walkable 4-neighbor, no configuration has a vertex collision and
no transition swaps, then the per-transition scan finds no error. -/
theorem transitionsError_eq_none (grid : Grid) (n : Nat) :
    ∀ pl : Plan,
      (∀ i < n, grid.walkable ((pl.headD []).getD i dPos) = true) →
      (∀ t < pl.length - 1, okTransition grid n (pl.getD t []) (pl.getD (t + 1) [])) →
      (∀ t < pl.length - 1, noSwap n (pl.getD t []) (pl.getD (t + 1) [])) →
      (∀ t < pl.length, noVertexCollision n (pl.getD t [])) →
      transitionsError grid n pl = none := by
  intro pl
  induction pl with
  | nil => intro _ _ _ _; rfl
  | cons c1 rest ih =>
      cases rest with
      | nil => intro _ _ _ _; rfl
      | cons c2 rest2 =>
          intro hw htrans hswap hvert
          have h01 : okTransition grid n c1 c2 := by
            have h := htrans 0 (by simp)
            simpa using h
          have hsw01 : noSwap n c1 c2 := by
            have h := hswap 0 (by simp)
            simpa using h
          have hv1 : noVertexCollision n c2 := by
            have h := hvert 1 (by simp)
            simpa using h
          have hw1 : ∀ i < n, grid.walkable (c1.getD i dPos) = true := by
            simpa using hw
          have hw2 : ∀ i < n, grid.walkable (c2.getD i dPos) = true := by
            intro i hi
            rcases h01 i hi with h | h
            · rw [h]; exact hw1 i hi
            · exact h.2
          have hmove : ∀ i < n, c2.getD i dPos = c1.getD i dPos ∨
              isNeighbor4 (c1.getD i dPos) (c2.getD i dPos) = true := by
            intro i hi
            rcases h01 i hi with h | h
            · exact Or.inl h
            · exact Or.inr h.1
          have herr : transitionError grid n c1 c2 = none := by
            unfold transitionError
            rw [if_neg (not_not_intro hw2), if_neg (not_not_intro hmove),
              if_neg (not_not_intro hv1), if_neg (not_not_intro hsw01)]
          show transitionsError grid n (c1 :: c2 :: rest2) = none
          rw [transitionsError, herr]
          apply ih
          · simpa using hw2
          · intro s hs
            have hb : s + 1 < (c1 :: c2 :: rest2 : Plan).length - 1 := by
              simp only [List.length_cons] at hs ⊢
              omega
            have h := htrans (s + 1) hb
            simpa using h
          · intro s hs
            have hb : s + 1 < (c1 :: c2 :: rest2 : Plan).length - 1 := by
              simp only [List.length_cons] at hs ⊢
              omega
            have h := hswap (s + 1) hb
            simpa using h
          · intro s hs
            have hb : s + 1 < (c1 :: c2 :: rest2 : Plan).length := by
              simp only [List.length_cons] at hs ⊢
              omega
            have h := hvert (s + 1) hb
            simpa using h

/-- Counterexample to C8 as stated: with the origin blocked, a single agent
that starts on the origin and waits there satisfies every hypothesis of the
claim — initial configuration equals starts, the only transition is a wait,
there is no vertex collision and no swap, and the final position equals the
goal — yet the validator's cell-validity check (spec section 4.1, kind
`BLOCKED_CELL`, applied to every target position including waits) rejects
the plan, so `validate` does not return success. -/
theorem C8_claim_counterexample :
    (([[((0 : Int), (0 : Int))], [((0 : Int), (0 : Int))]] : Plan).head? =
        some [((0 : Int), (0 : Int))] ∧
      (∀ t < ([[((0 : Int), (0 : Int))], [((0 : Int), (0 : Int))]] : Plan).length - 1,
        okTransition originBlockedGrid ([((0 : Int), (0 : Int))] : List Pos).length
          (([[((0 : Int), (0 : Int))], [((0 : Int), (0 : Int))]] : Plan).getD t [])
          (([[((0 : Int), (0 : Int))], [((0 : Int), (0 : Int))]] : Plan).getD (t + 1) [])) ∧
      (∀ t < ([[((0 : Int), (0 : Int))], [((0 : Int), (0 : Int))]] : Plan).length - 1,
        noSwap ([((0 : Int), (0 : Int))] : List Pos).length
          (([[((0 : Int), (0 : Int))], [((0 : Int), (0 : Int))]] : Plan).getD t [])
          (([[((0 : Int), (0 : Int))], [((0 : Int), (0 : Int))]] : Plan).getD (t + 1) [])) ∧
      (∀ t < ([[((0 : Int), (0 : Int))], [((0 : Int), (0 : Int))]] : Plan).length,
        noVertexCollision ([((0 : Int), (0 : Int))] : List Pos).length
          (([[((0 : Int), (0 : Int))], [((0 : Int), (0 : Int))]] : Plan).getD t [])) ∧
      (∀ i < ([((0 : Int), (0 : Int))] : List Pos).length,
        (([[((0 : Int), (0 : Int))], [((0 : Int), (0 : Int))]] : Plan).getD
            (([[((0 : Int), (0 : Int))], [((0 : Int), (0 : Int))]] : Plan).length - 1)
            []).getD i dPos =
          ([((0 : Int), (0 : Int))] : List Pos).getD i dPos)) ∧
    validate originBlockedGrid [((0 : Int), (0 : Int))] [((0 : Int), (0 : Int))]
      [[((0 : Int), (0 : Int))], [((0 : Int), (0 : Int))]] ≠ .ok := by
  decide

/-- C8 (amended): for every plan whose initial configuration equals the
starts, whose starts are on walkable cells, in which every transition waits
or moves to a walkable 4-directional neighbor, no configuration has two
distinct agents on one cell, no transition swaps two agents, and every
agent's final position equals its goal, the validator returns success.  (The
amendment adds the walkability of the start cells, which the claim as stated
omits and the cell-validity check requires for waiting agents.) -/
theorem C8_valid_plan_validate_ok (grid : Grid) (starts goals : List Pos) (plan : Plan)
    (hhead : plan.head? = some starts)
    (hwstart : ∀ i < starts.length, grid.walkable (starts.getD i dPos) = true)
    (htrans : ∀ t < plan.length - 1,
      okTransition grid starts.length (plan.getD t []) (plan.getD (t + 1) []))
    (hswap : ∀ t < plan.length - 1,
      noSwap starts.length (plan.getD t []) (plan.getD (t + 1) []))
    (hvert : ∀ t < plan.length, noVertexCollision starts.length (plan.getD t []))
    (hfinal : ∀ i < starts.length,
      (plan.getD (plan.length - 1) []).getD i dPos = goals.getD i dPos) :
    validate grid starts goals plan = .ok := by
  obtain ⟨rest, rfl⟩ : ∃ r, plan = starts :: r := by
    cases plan with
    | nil => simp at hhead
    | cons c0 r =>
        have hc0 : c0 = starts := by simpa using hhead
        exact ⟨r, by rw [hc0]⟩
  have hTE : transitionsError grid starts.length (starts :: rest) = none := by
    apply transitionsError_eq_none
    · simpa using hwstart
    · exact htrans
    · exact hswap
    · exact hvert
  simp only [validate, hTE]
  rw [if_neg (not_not_intro rfl), if_pos hfinal]

/-- Witness for the amended C8: on a fully open grid, one agent stepping
from `(0,0)` to `(0,1)` satisfies every hypothesis and the validator
accepts the plan. -/
theorem C8_valid_plan_validate_ok_witness :
    (([[((0 : Int), (0 : Int))], [((0 : Int), (1 : Int))]] : Plan).head? =
        some [((0 : Int), (0 : Int))] ∧
      (∀ i < ([((0 : Int), (0 : Int))] : List Pos).length,
        openGrid.walkable (([((0 : Int), (0 : Int))] : List Pos).getD i dPos) = true) ∧
      (∀ t < ([[((0 : Int), (0 : Int))], [((0 : Int), (1 : Int))]] : Plan).length - 1,
        okTransition openGrid ([((0 : Int), (0 : Int))] : List Pos).length
          (([[((0 : Int), (0 : Int))], [((0 : Int), (1 : Int))]] : Plan).getD t [])
          (([[((0 : Int), (0 : Int))], [((0 : Int), (1 : Int))]] : Plan).getD (t + 1) [])) ∧
      (∀ t < ([[((0 : Int), (0 : Int))], [((0 : Int), (1 : Int))]] : Plan).length - 1,
        noSwap ([((0 : Int), (0 : Int))] : List Pos).length
          (([[((0 : Int), (0 : Int))], [((0 : Int), (1 : Int))]] : Plan).getD t [])
          (([[((0 : Int), (0 : Int))], [((0 : Int), (1 : Int))]] : Plan).getD (t + 1) [])) ∧
      (∀ t < ([[((0 : Int), (0 : Int))], [((0 : Int), (1 : Int))]] : Plan).length,
        noVertexCollision ([((0 : Int), (0 : Int))] : List Pos).length
          (([[((0 : Int), (0 : Int))], [((0 : Int), (1 : Int))]] : Plan).getD t [])) ∧
      (∀ i < ([((0 : Int), (0 : Int))] : List Pos).length,
        (([[((0 : Int), (0 : Int))], [((0 : Int), (1 : Int))]] : Plan).getD
            (([[((0 : Int), (0 : Int))], [((0 : Int), (1 : Int))]] : Plan).length - 1)
            []).getD i dPos =
          ([((0 : Int), (1 : Int))] : List Pos).getD i dPos)) ∧
    validate openGrid [((0 : Int), (0 : Int))] [((0 : Int), (1 : Int))]
      [[((0 : Int), (0 : Int))], [((0 : Int), (1 : Int))]] = .ok :=
  ⟨⟨by decide, by decide, by decide, by decide, by decide, by decide⟩,
    C8_valid_plan_validate_ok openGrid [((0 : Int), (0 : Int))] [((0 : Int), (1 : Int))]
      [[((0 : Int), (0 : Int))], [((0 : Int), (1 : Int))]]
      (by decide) (by decide) (by decide) (by decide) (by decide) (by decide)⟩
